import Mathlib

/-! Verification of the multi-provider TTS dispatch subsystem of the
AI-Journalist repository.

The development shallowly embeds:
* the voice-catalog filter `filter_voice_models`
  (src/test_speechify_simple.py, lines 148-164);
* the TTS dispatch and response logic of `generate_news_audio`
  (src/backend.py, lines 38-69), with the scraping/summarization
  collaborators and the concrete provider calls abstracted to their
  outcomes;
* the primary synthesis entry point `text_to_audio_speechify`, whose
  body lives in utils.py (absent from the snapshot) and is therefore
  modelled from the spec.
-/

namespace AIJournalist

/-- A supported language of a model; carries a locale string such as "en-US". -/
structure Language where
  locale : String
deriving DecidableEq

/-- A synthesis model nested in a voice: a name plus supported languages. -/
structure Model where
  name : String
  languages : List Language
deriving DecidableEq

/-- A voice exposed by the provider catalog: gender string, free-form tags,
and an ordered sequence of models. -/
structure Voice where
  gender : String
  tags : List String
  models : List Model
deriving DecidableEq

/-- ASCII lowering of one character, as Python's `str.lower` acts on the
ASCII range (the only range the program compares). -/
def pyLowerChar (c : Char) : Char :=
  if 'A' ≤ c ∧ c ≤ 'Z' then Char.ofNat (c.toNat + 32) else c

/-- Embedding of Python's `str.lower` (ASCII fragment). -/
def pyLower (s : String) : String :=
  ⟨s.data.map pyLowerChar⟩

/-- First guard of `filter_voice_models`:
`if gender and voice.gender.lower() != gender.lower(): continue`.
A supplied gender of `none` models an omitted keyword argument; the
empty string is falsy in Python, so it disables the guard as well. -/
def genderSkips (gender : Option String) (voice : Voice) : Bool :=
  match gender with
  | none => false
  | some g => !g.isEmpty && pyLower voice.gender != pyLower g

/-- Second guard of `filter_voice_models`:
`if locale:` followed by
`if not any(any(lang.locale == locale for lang in model.languages) for model in voice.models): continue`. -/
def localeSkips (locale : Option String) (voice : Voice) : Bool :=
  match locale with
  | none => false
  | some loc =>
      !loc.isEmpty &&
        !(voice.models.any fun model =>
            model.languages.any fun lang => lang.locale == loc)

/-- Third guard of `filter_voice_models`:
`if tags:` followed by
`if not all(tag in voice.tags for tag in tags): continue`. -/
def tagsSkips (tags : Option (List String)) (voice : Voice) : Bool :=
  match tags with
  | none => false
  | some ts => !ts.isEmpty && !(ts.all fun tag => voice.tags.contains tag)

/-- Embedding of `filter_voice_models` from src/test_speechify_simple.py
(lines 148-164).  The Python loop skips a voice as soon as one of the three
guards fires (`continue`), and otherwise appends every model name of the
voice to the result list. -/
def filter_voice_models (voices : List Voice)
    (gender locale : Option String) (tags : Option (List String)) :
    List String :=
  match voices with
  | [] => []
  | voice :: rest =>
      if genderSkips gender voice || localeSkips locale voice ||
          tagsSkips tags voice then
        filter_voice_models rest gender locale tags
      else
        voice.models.map Model.name ++ filter_voice_models rest gender locale tags

/-- Model names of a voice list in order, every model of every voice. -/
def namesOf : List Voice → List String
  | [] => []
  | voice :: rest => voice.models.map Model.name ++ namesOf rest

/-- The two mock voices of the repository's own test
(`test_voice_filtering_logic`). -/
def voice1 : Voice :=
  Voice.mk "male" ["timbre:deep", "accent:american"]
    [Model.mk "voice1" [Language.mk "en-US"]]

def voice2 : Voice :=
  Voice.mk "female" ["timbre:bright"]
    [Model.mk "voice2" [Language.mk "fr-FR"]]

/-- Sanity: the four assertions of the repository's own filtering test. -/
theorem test_voice_filtering_logic :
    filter_voice_models [voice1, voice2] (some "male") none none = ["voice1"] ∧
    filter_voice_models [voice1, voice2] (some "female") none none = ["voice2"] ∧
    filter_voice_models [voice1, voice2] none (some "en-US") none = ["voice1"] ∧
    filter_voice_models [voice1, voice2] none none (some ["timbre:deep"]) = ["voice1"] := by
  decide

/-- The filter keeps exactly the voices at which none of the three guards
fires, and lists all of their model names in order. -/
theorem fvm_eq_namesOf_filter (voices : List Voice)
    (gender locale : Option String) (tags : Option (List String)) :
    filter_voice_models voices gender locale tags =
      namesOf (voices.filter fun v =>
        !(genderSkips gender v || localeSkips locale v || tagsSkips tags v)) := by
  induction voices with
  | nil => rfl
  | cons voice rest ih =>
      rw [filter_voice_models, List.filter_cons, ih]
      cases hcond : (genderSkips gender voice || localeSkips locale voice ||
          tagsSkips tags voice) with
      | false => simp [hcond, namesOf]
      | true => simp [hcond]

theorem namesOf_sublist {l₁ l₂ : List Voice} (h : l₁.Sublist l₂) :
    (namesOf l₁).Sublist (namesOf l₂) := by
  induction h with
  | slnil => exact List.Sublist.refl _
  | cons voice _ ih =>
      exact List.Sublist.trans ih (List.sublist_append_right _ _)
  | cons₂ voice _ ih =>
      exact List.Sublist.append_left ih _

/-- The filter only looks at its criteria through the three guards, so
pointwise-equal guards give equal results. -/
theorem fvm_congr (voices : List Voice)
    {g₁ g₂ l₁ l₂ : Option String} {t₁ t₂ : Option (List String)}
    (hg : ∀ v, genderSkips g₁ v = genderSkips g₂ v)
    (hl : ∀ v, localeSkips l₁ v = localeSkips l₂ v)
    (ht : ∀ v, tagsSkips t₁ v = tagsSkips t₂ v) :
    filter_voice_models voices g₁ l₁ t₁ = filter_voice_models voices g₂ l₂ t₂ := by
  induction voices with
  | nil => rfl
  | cons voice rest ih =>
      simp only [filter_voice_models, hg voice, hl voice, ht voice, ih]

/-- Supplying one criterion can only shrink the kept-voice set, so the
result is a sublist of the result with any subset of the guards active. -/
theorem fvm_sublist_of_imp (voices : List Voice)
    {g₁ g₂ l₁ l₂ : Option String} {t₁ t₂ : Option (List String)}
    (h : ∀ v, (genderSkips g₂ v || localeSkips l₂ v || tagsSkips t₂ v) = true →
      (genderSkips g₁ v || localeSkips l₁ v || tagsSkips t₁ v) = true) :
    (filter_voice_models voices g₁ l₁ t₁).Sublist
      (filter_voice_models voices g₂ l₂ t₂) := by
  rw [fvm_eq_namesOf_filter, fvm_eq_namesOf_filter]
  refine namesOf_sublist (List.monotone_filter_right _ ?_)
  intro v hv
  simp only [Bool.not_eq_true'] at hv ⊢
  cases h2 : (genderSkips g₂ v || localeSkips l₂ v || tagsSkips t₂ v) with
  | false => rfl
  | true => simp [h v h2] at hv

theorem namesOf_eq_flatten (l : List Voice) :
    namesOf l = (l.map fun v => v.models.map Model.name).flatten := by
  induction l with
  | nil => rfl
  | cons voice rest ih => simp [namesOf, ih]

/-- Claim C1: for every voice list and every combination of optional
criteria, `filter_voice_models` keeps exactly the voices passing all three
per-criterion filters (the intersection of the per-criterion filtered
voice sets), and omitting any one criterion never narrows the result. -/
theorem claim_C1 (voices : List Voice)
    (gender locale : Option String) (tags : Option (List String)) :
    filter_voice_models voices gender locale tags =
      namesOf ((((voices.filter fun v => !genderSkips gender v).filter
        fun v => !localeSkips locale v).filter fun v => !tagsSkips tags v)) ∧
    (filter_voice_models voices gender locale tags).Sublist
      (filter_voice_models voices none locale tags) ∧
    (filter_voice_models voices gender locale tags).Sublist
      (filter_voice_models voices gender none tags) ∧
    (filter_voice_models voices gender locale tags).Sublist
      (filter_voice_models voices gender locale none) := by
  refine ⟨?_, ?_, ?_, ?_⟩
  · rw [fvm_eq_namesOf_filter, List.filter_filter, List.filter_filter]
    congr 1
    refine List.filter_congr fun v _ => ?_
    cases genderSkips gender v <;> cases localeSkips locale v <;>
      cases tagsSkips tags v <;> rfl
  · refine fvm_sublist_of_imp voices fun v hv => ?_
    simp only [genderSkips, Bool.false_or, Bool.or_eq_true] at hv
    rcases hv with h | h <;> simp [h]
  · refine fvm_sublist_of_imp voices fun v hv => ?_
    simp only [localeSkips, Bool.or_false, Bool.or_eq_true] at hv
    rcases hv with h | h <;> simp [h]
  · refine fvm_sublist_of_imp voices fun v hv => ?_
    simp only [tagsSkips, Bool.or_false] at hv
    simp [hv]

/-- Claim C9: the filter result is exactly the concatenation, over the
qualifying voices in their original order, of all of each voice's model
names in their original order — model names only, every model of a
qualifying voice, with no deduplication. -/
theorem claim_C9 (voices : List Voice)
    (gender locale : Option String) (tags : Option (List String)) :
    filter_voice_models voices gender locale tags =
      ((voices.filter fun v =>
          !(genderSkips gender v || localeSkips locale v || tagsSkips tags v)).map
        fun v => v.models.map Model.name).flatten := by
  rw [fvm_eq_namesOf_filter, namesOf_eq_flatten]

/-- Claim C10: a falsy criterion value — gender `""` or tags `[]` — behaves
exactly as an omitted criterion, because each guard tests truthiness. -/
theorem claim_C10 (voices : List Voice) (gender locale : Option String)
    (tags : Option (List String)) :
    filter_voice_models voices (some "") locale tags =
      filter_voice_models voices none locale tags ∧
    filter_voice_models voices gender locale (some []) =
      filter_voice_models voices gender locale none := by
  have eS : ("" : String).isEmpty = true := by decide
  have eL : (([] : List String)).isEmpty = true := rfl
  constructor
  · exact fvm_congr voices (fun v => by simp [genderSkips, eS])
      (fun _ => rfl) (fun _ => rfl)
  · exact fvm_congr voices (fun _ => rfl) (fun _ => rfl)
      (fun v => by simp [tagsSkips, eL])

/-- Claim C6: filtering by gender "MALE" and by gender "male" give
identical results — the gender criterion is compared case-insensitively. -/
theorem claim_C6 (voices : List Voice) (locale : Option String)
    (tags : Option (List String)) :
    filter_voice_models voices (some "MALE") locale tags =
      filter_voice_models voices (some "male") locale tags := by
  refine fvm_congr voices (fun v => ?_) (fun _ => rfl) (fun _ => rfl)
  have h : pyLower "MALE" = pyLower "male" := by decide
  have e1 : "MALE".isEmpty = false := by decide
  have e2 : "male".isEmpty = false := by decide
  simp [genderSkips, h, e1, e2]

/-- Claim C7: with a non-empty requested tag list, a voice qualifies iff
every requested tag is a member of its tag list; appending extra unrelated
tags to the voice never disqualifies it. -/
theorem claim_C7 (v : Voice) (t : String) (ts extra : List String) :
    (filter_voice_models [v] none none (some (t :: ts)) =
      if (t :: ts).all (fun tag => v.tags.contains tag) then
        v.models.map Model.name else []) ∧
    ((t :: ts).all (fun tag => v.tags.contains tag) = true ↔
      ∀ tag ∈ t :: ts, tag ∈ v.tags) ∧
    (filter_voice_models [v] none none (some (t :: ts))).Sublist
      (filter_voice_models [Voice.mk v.gender (v.tags ++ extra) v.models]
        none none (some (t :: ts))) := by
  refine ⟨?_, ?_, ?_⟩
  · simp only [filter_voice_models, genderSkips, localeSkips, tagsSkips,
      Bool.false_or, List.isEmpty_cons, Bool.not_false, Bool.true_and]
    cases hall : (t :: ts).all (fun tag => v.tags.contains tag) <;> simp
  · simp only [List.all_eq_true, List.contains, List.elem_eq_mem,
      decide_eq_true_eq]
  · cases hall : (t :: ts).all (fun tag => v.tags.contains tag) with
    | false =>
        have hL : filter_voice_models [v] none none (some (t :: ts)) = [] := by
          simp only [filter_voice_models, genderSkips, localeSkips, tagsSkips,
            Bool.false_or, List.isEmpty_cons, Bool.not_false, Bool.true_and]
          rw [hall]
          simp
        rw [hL]
        exact List.nil_sublist _
    | true =>
        have hall2 :
            (t :: ts).all (fun tag => (v.tags ++ extra).contains tag) = true := by
          rw [List.all_eq_true] at hall ⊢
          intro tag htag
          have h1 := hall tag htag
          simp only [List.contains, List.elem_eq_mem, decide_eq_true_eq] at h1 ⊢
          exact List.mem_append_left extra h1
        simp only [filter_voice_models, genderSkips, localeSkips, tagsSkips,
          Bool.false_or, List.isEmpty_cons, Bool.not_false, Bool.true_and]
        rw [hall, hall2]

/-- A voice none of whose languages carries the empty locale string. -/
def frVoice : Voice := Voice.mk "female" [] [Model.mk "m2" [Language.mk "fr-FR"]]

/-- Claim C8 counterexample: with requested locale `""` (falsy in Python,
so the guard is disabled), `frVoice` is included in the filter result even
though none of its languages has locale `""` — so "the voice satisfies the
locale criterion iff some language's locale equals the requested locale"
fails for the requested locale `""`. -/
theorem claim_C8_counterexample :
    ¬ ((filter_voice_models [frVoice] none (some "") none ≠ []) ↔
        ∃ m ∈ frVoice.models, ∃ lang ∈ m.languages, lang.locale = "") := by
  decide

/-- Claim C8 (amended to non-empty requested locales): for every voice and
every non-empty requested locale, the voice qualifies iff some of its
models has some language whose locale equals the requested locale exactly
(case-sensitive string equality). -/
theorem claim_C8 (v : Voice) (loc : String) (h : loc ≠ "") :
    (filter_voice_models [v] none (some loc) none =
      if v.models.any (fun m => m.languages.any fun lang => lang.locale == loc) then
        v.models.map Model.name else []) ∧
    ((v.models.any fun m => m.languages.any fun lang => lang.locale == loc) = true ↔
      ∃ m ∈ v.models, ∃ lang ∈ m.languages, lang.locale = loc) := by
  have hE : loc.isEmpty = false := by
    cases he : loc.isEmpty
    · rfl
    · exact absurd ((String.isEmpty_iff loc).mp he) h
  constructor
  · simp only [filter_voice_models, genderSkips, localeSkips, tagsSkips,
      Bool.false_or, Bool.or_false, hE, Bool.not_false, Bool.true_and]
    cases hany :
        (v.models.any fun m => m.languages.any fun lang => lang.locale == loc) <;>
      simp
  · simp [List.any_eq_true, beq_iff_eq]

theorem claim_C8_witness :
    "fr-FR" ≠ "" ∧
    ((filter_voice_models [frVoice] none (some "fr-FR") none =
      if frVoice.models.any (fun m => m.languages.any fun lang => lang.locale == "fr-FR") then
        frVoice.models.map Model.name else []) ∧
    ((frVoice.models.any fun m => m.languages.any fun lang => lang.locale == "fr-FR") = true ↔
      ∃ m ∈ frVoice.models, ∃ lang ∈ m.languages, lang.locale = "fr-FR")) :=
  ⟨by decide, claim_C8 frVoice "fr-FR" (by decide)⟩

theorem isEmpty_false_of_ne {s : String} (h : s ≠ "") : s.isEmpty = false := by
  cases hi : s.isEmpty
  · rfl
  · exact absurd ((String.isEmpty_iff s).mp hi) h

/-! Embedding of the TTS dispatch of the backend, src/backend.py lines 38-69. -/

/-- A Python exception kind relevant to the dispatch in backend.py; the
clause `except (ValueError, Exception)` on line 47 catches every one of
these (`Exception` is the base class of all three). -/
inductive PyError where
  | valueError (msg : String)
  | ioError (msg : String)
  | otherError (msg : String)
deriving DecidableEq

/-- The `str(e)` detail string of a Python exception. -/
def PyError.msg : PyError → String
  | .valueError m => m
  | .ioError m => m
  | .otherError m => m

/-- Observable outcome of the `/generate-news-audio` handler: a 200
response carrying audio bytes, the implicit `return None` reached when
`audio_path` is falsy or the file does not exist (lines 58-66 fall
through), or `HTTPException(status_code=500, detail=...)` from line 69. -/
inductive BackendOutcome where
  | response (bytes : List Nat)
  | noContent
  | httpError (detail : String)
deriving DecidableEq

/-- Lines 58-66 of backend.py: `if audio_path and Path(audio_path).exists():`
read the file and return its bytes; otherwise the handler falls through and
returns Python `None`.  `fs` maps a path to the bytes of the file at that
path when it exists. -/
def respond (fs : String → Option (List Nat)) (audio_path : String) :
    BackendOutcome :=
  if audio_path.isEmpty then .noContent
  else
    match fs audio_path with
    | some bytes => .response bytes
    | none => .noContent

/-- Embedding of the TTS dispatch and response logic of
`generate_news_audio` (src/backend.py, lines 38-69).  The scraping and
summarization steps are external collaborators (spec §1) and are omitted;
the two provider calls `text_to_audio_speechify` and
`text_to_audio_elevenlabs_sdk` are abstracted to their outcomes (a path,
or a raised exception).  The second component records which providers were
invoked, in order: index 0 is Speechify, index 1 is ElevenLabs.  An
exception from the fallback provider propagates to the outer handler,
which converts it to `HTTPException(500, str(e))`. -/
def generate_news_audio (fs : String → Option (List Nat))
    (speechify elevenlabs : Except PyError String) :
    BackendOutcome × List Nat :=
  match speechify with
  | .ok audio_path => (respond fs audio_path, [0])
  | .error _ =>
      match elevenlabs with
      | .ok audio_path => (respond fs audio_path, [0, 1])
      | .error e => (.httpError e.msg, [0, 1])

/-- Concrete file system for witnesses: exactly one file "a.mp3" holding
bytes [1, 2, 3]. -/
def fsW : String → Option (List Nat) :=
  fun s => if s = "a.mp3" then some [1, 2, 3] else none

/-- Claim C2: when the first provider (Speechify) fails with any error and
the second (ElevenLabs) succeeds, the returned artifact is exactly the
second provider's output and no provider after the second is invoked (the
chain ends at index 1); when the first provider succeeds, no further
provider is tried at all. -/
theorem claim_C2 (fs : String → Option (List Nat)) (e : PyError) (p : String)
    (b : List Nat) (second : Except PyError String) :
    ((generate_news_audio fs (.error e) (.ok p)).2 = [0, 1]) ∧
    (p ≠ "" → fs p = some b →
      (generate_news_audio fs (.error e) (.ok p)).1 = .response b) ∧
    ((generate_news_audio fs (.ok p) second).2 = [0]) := by
  refine ⟨rfl, fun hp hb => ?_, rfl⟩
  simp [generate_news_audio, respond, isEmpty_false_of_ne hp, hb]

theorem claim_C2_witness :
    "a.mp3" ≠ "" ∧ fsW "a.mp3" = some [1, 2, 3] ∧
    (generate_news_audio fsW (.error (.otherError "boom")) (.ok "a.mp3")).1 =
      .response [1, 2, 3] :=
  ⟨by decide, by decide,
    (claim_C2 fsW (.otherError "boom") "a.mp3" [1, 2, 3]
      (.error (.otherError "x"))).2.1 (by decide) (by decide)⟩

/-- Claim C3: under providers that honor the persistence contract (a
successful provider returns a non-empty path to an existing non-empty
file), the caller receives either a valid audio artifact or a single
terminal error; the error outcome occurs only when both providers in the
chain have failed, and in that case the call fails with the last failure's
detail (no silent empty success). -/
theorem claim_C3 (fs : String → Option (List Nat))
    (speechify elevenlabs : Except PyError String)
    (hvalid : ∀ p, speechify = .ok p ∨ elevenlabs = .ok p →
      p ≠ "" ∧ ∃ b, fs p = some b ∧ b ≠ []) :
    (∃ b, b ≠ [] ∧
      (generate_news_audio fs speechify elevenlabs).1 = .response b) ∨
    (∃ e₁ e₂, speechify = .error e₁ ∧ elevenlabs = .error e₂ ∧
      (generate_news_audio fs speechify elevenlabs).1 =
        .httpError (PyError.msg e₂)) := by
  cases speechify with
  | ok p =>
      obtain ⟨hp, b, hb, hbne⟩ := hvalid p (Or.inl rfl)
      exact Or.inl ⟨b, hbne,
        by simp [generate_news_audio, respond, isEmpty_false_of_ne hp, hb]⟩
  | error e₁ =>
      cases elevenlabs with
      | ok p =>
          obtain ⟨hp, b, hb, hbne⟩ := hvalid p (Or.inr rfl)
          exact Or.inl ⟨b, hbne,
            by simp [generate_news_audio, respond, isEmpty_false_of_ne hp, hb]⟩
      | error e₂ => exact Or.inr ⟨e₁, e₂, rfl, rfl, rfl⟩

theorem claim_C3_witness :
    (∃ b, b ≠ [] ∧
      (generate_news_audio fsW (.error (.otherError "speechify down"))
        (.error (.valueError "eleven down"))).1 = .response b) ∨
    (∃ e₁ e₂,
      (Except.error (.otherError "speechify down") : Except PyError String) =
        .error e₁ ∧
      (Except.error (.valueError "eleven down") : Except PyError String) =
        .error e₂ ∧
      (generate_news_audio fsW (.error (.otherError "speechify down"))
        (.error (.valueError "eleven down"))).1 =
        .httpError (PyError.msg e₂)) :=
  claim_C3 fsW _ _
    (fun p hp => by rcases hp with h | h <;> exact Except.noConfusion h)

/-- Claim C5 counterexample: local persistence happens inside the provider
call (utils.py writes the audio file inside `text_to_audio_speechify`
before returning the path), and backend.py wraps that whole call in
`except (ValueError, Exception)`.  An IOError raised there is therefore
caught and DOES trigger fallback: with Speechify raising IOError
"disk full" and ElevenLabs succeeding, provider 2 is invoked ([0, 1]) and
its artifact is returned — the request is not fatal, refuting "never
triggers fallback". -/
theorem claim_C5_counterexample :
    generate_news_audio fsW (.error (.ioError "disk full")) (.ok "a.mp3") =
      (.response [1, 2, 3], [0, 1]) := by
  decide

/-- Claim C5 (amended): an IOError raised during local persistence inside
a provider call is treated like any other failure by the broad handler: if
it comes from the first provider it triggers fallback to the next
provider; only when it comes from the last provider of the chain is it
fatal for the current request (terminal 500 with its detail, no further
fallback). -/
theorem claim_C5 (fs : String → Option (List Nat)) (m : String)
    (el : Except PyError String) (e₁ : PyError) :
    ((generate_news_audio fs (.error (.ioError m)) el).2 = [0, 1]) ∧
    (generate_news_audio fs (.error e₁) (.error (.ioError m)) =
      (.httpError m, [0, 1])) := by
  constructor
  · cases el <;> rfl
  · rfl

/-! Embedding of the primary synthesis entry point, modelled from the spec. -/

/-- Error taxonomy of spec §7 for a provider adapter: a missing credential
is a `ConfigError`, any remote failure a `ProviderError`. -/
inductive TTSError where
  | configError (msg : String)
  | providerError (msg : String)
deriving DecidableEq

/-- Modelled from the spec: the body of `text_to_audio_speechify` lives in
utils.py, which is absent from the repository snapshot — only its tests
(test_speechify_migration.py) and callers (backend.py) are present.  Per
spec §4.2 and §6, the primary entry point reads the configured credential
and fails with a ConfigError saying "API key is required" if no credential
is configured, detected and signaled before any network call; otherwise the
provider interaction proceeds.  `apiKey` is the credential (`none` when
the environment variable is unset; the empty string is falsy in Python and
also counts as unconfigured), `net` abstracts the whole provider
interaction, and the Boolean records whether the network was contacted. -/
def text_to_audio_speechify (apiKey : Option String)
    (net : Except TTSError String) : Except TTSError String × Bool :=
  match apiKey with
  | none => (.error (.configError "Speechify API key is required"), false)
  | some k =>
      if k.isEmpty then
        (.error (.configError "Speechify API key is required"), false)
      else (net, true)

/-- Claim C4: calling the primary synthesis entry point with no credential
configured fails with a ConfigError whose message contains
"API key is required", this error is distinct from every ProviderError,
and it is signaled before any network call (the network flag stays
false). -/
theorem claim_C4 (net : Except TTSError String) :
    (text_to_audio_speechify none net =
      (.error (.configError "Speechify API key is required"), false)) ∧
    (∃ pre post, "Speechify API key is required" =
      pre ++ "API key is required" ++ post) ∧
    (∀ m m', TTSError.configError m ≠ TTSError.providerError m') :=
  ⟨rfl, ⟨"Speechify ", "", by decide⟩, fun _ _ h => TTSError.noConfusion h⟩

end AIJournalist
